import Mathlib

set_option maxRecDepth 16384

/-!
Verification of the Conversation Context Builder of the AgroNova smart
farming assistant (src/app.py).  The Python functions
`generate_system_prompt`, `get_ai_response`, the `/chat` route handler
and the module-level `generation_config` are shallowly embedded as pure
Lean functions; the one remote call (`chat.send_message`) is abstracted
as a function parameter returning `Except String String`, where
`Except.error e` stands for a raised exception whose `str(e)` is `e`.
-/

namespace AgroNova

/-- A chat-history message as the front end sends it: a dict with keys
`role` and `content` (src/app.py, the `history` payload of `/chat`). -/
structure Msg where
  role : String
  content : String
  deriving DecidableEq, Repr

/-- One entry of the conversation list handed to the Gemini API: a dict
with keys `role` and `parts` (src/app.py lines 168-184). -/
structure Entry where
  role : String
  parts : List String
  deriving DecidableEq, Repr

/-- The base system framing (src/app.py lines 122-146, `base_prompt`).
The parenthesised emoji list is reproduced codepoint-for-codepoint as it
appears in the source file. -/
def base_prompt : String :=
  "You are AgroNova, an expert AI agricultural assistant helping farmers worldwide. \nYou provide practical, actionable farming advice based on scientific principles and regional best practices.\n\nYour expertise includes:\n- Crop recommendations based on location, season, soil type, and climate\n- Pest and disease identification and management (organic and chemical solutions)\n- Weather-based farming advice and planning\n- Soil health and fertilizer recommendations\n- Sustainable and organic farming practices\n\nAlways provide:\n1. Clear, structured responses with practical steps\n2. Region-specific advice when location is mentioned\n3. Both organic and conventional solutions when applicable\n4. Safety warnings for chemical applications\n5. Preventive measures alongside treatments\n\nFormat your responses with:\n- Clear headings using **bold** for main points\n- Bullet points for lists\n- Emojis for visual appeal (üåæ üêõ üíß üå± etc.)\n- Specific measurements and timings\n- Action-oriented language\n\nKeep responses concise but comprehensive, typically 200-400 words unless detailed technical information is requested."

/-- The per-feature instruction fragments (src/app.py lines 148-154,
`feature_contexts`), embedded as an association list. -/
def feature_contexts : List (String × String) :=
  [("crop-recommendation", "\n\nFocus on: Suggesting appropriate crops based on soil type, climate, season, water availability, and market demand. Include planting times, expected yields, and care requirements."),
   ("pest-disease", "\n\nFocus on: Identifying pests and diseases from descriptions, providing both organic and chemical treatment options, preventive measures, and application guidelines."),
   ("weather-alerts", "\n\nFocus on: Providing weather-based farming advice, irrigation scheduling, harvest timing, and crop protection strategies during different weather conditions."),
   ("soil-fertilizer", "\n\nFocus on: Soil health assessment, pH management, nutrient deficiency identification, fertilizer recommendations (NPK ratios), and organic soil improvement methods."),
   ("sustainable-farming", "\n\nFocus on: Eco-friendly pest control, organic farming practices, companion planting, water conservation, biodiversity, and certification guidance.")]

/-- `generate_system_prompt(feature=None)` (src/app.py lines 120-158).
Python: `if feature and feature in feature_contexts: return base_prompt +
feature_contexts[feature]; return base_prompt`.  `feature` is falsy when
it is `None` or the empty string. -/
def generate_system_prompt (feature : Option String) : String :=
  match feature with
  | some f =>
    if f ≠ "" then
      match feature_contexts.lookup f with
      | some ctx => base_prompt ++ ctx
      | none => base_prompt
    else base_prompt
  | none => base_prompt

/-- The fixed acknowledgment text of the priming pair
(src/app.py line 174). -/
def ack_text : String :=
  "I understand. I\x27m AgroNova, your agricultural assistant. I\x27ll provide practical, region-specific farming advice with clear formatting and actionable steps."

/-- `chat_history[-6:]`: the trailing window of at most 6 history
entries (src/app.py line 179). -/
def windowOf (h : List Msg) : List Msg :=
  h.drop (h.length - 6)

/-- `role = "user" if msg["role"] == "user" else "model"`
(src/app.py line 180). -/
def mapRole (r : String) : String :=
  if r = "user" then "user" else "model"

/-- Translation of one history message into a conversation entry
(src/app.py lines 180-184). -/
def toEntry (msg : Msg) : Entry :=
  ⟨mapRole msg.role, [msg.content]⟩

/-- The history part of the conversation: `if chat_history:` followed by
the loop over `chat_history[-6:]` (src/app.py lines 178-184).  The
Python guard skips a `None` or empty history, which appends nothing. -/
def historyEntries (h : List Msg) : List Entry :=
  if h.isEmpty then [] else (windowOf h).map toEntry

/-- The `conversation` list built by `get_ai_response` before the remote
call (src/app.py lines 164-184): priming pair, then windowed history. -/
def buildConversation (feature : Option String) (chat_history : List Msg) : List Entry :=
  ⟨"user", [generate_system_prompt feature]⟩ ::
    ⟨"model", [ack_text]⟩ ::
      historyEntries chat_history

/-- The full message sequence handed to the model for one turn:
`model.start_chat(history=conversation)` seeds `conversation` and
`chat.send_message(user_message)` appends the new user message
(src/app.py lines 187-188). -/
def invocationContext (user_message : String) (feature : Option String)
    (chat_history : List Msg) : List Entry :=
  buildConversation feature chat_history ++ [⟨"user", [user_message]⟩]

/-- The fixed text of the fallback message up to and including
`"Error details: "` (src/app.py lines 195-207). -/
def fallbackBody : String :=
  "**Error Processing Request**\n\nI encountered an issue generating a response. This could be due to:\n- API key not configured properly\n- Network connectivity issues\n- API rate limits\n\n**Please ensure:**\n1. Your Gemini API key is correctly set in the code (app_key variable)\n2. You have an active internet connection\n3. Your API key has sufficient quota\n\nError details: "

/-- The complete fallback message for a caught exception `e`
(src/app.py lines 195-207): fixed text followed by `str(e)`. -/
def fallbackMessage (e : String) : String :=
  fallbackBody ++ e

/-- `get_ai_response(user_message, feature, chat_history)`
(src/app.py lines 160-207).  The remote call is the parameter `send`,
given the built conversation and the new message; `Except.error e`
models a raised exception with `str(e) = e`, which the `except` clause
turns into the fallback message.  (The `print(error_msg)` on the error
path is console logging with no effect on the returned value.) -/
def get_ai_response (user_message : String) (feature : Option String)
    (chat_history : List Msg)
    (send : List Entry → String → Except String String) : String :=
  match send (buildConversation feature chat_history) user_message with
  | Except.ok text => text
  | Except.error e => fallbackMessage e

/-- Outcome of the `/chat` route: an HTTP error response with a status
code, or a JSON answer wrapping the AI response text. -/
inductive ChatOutcome where
  | rejected : String → Nat → ChatOutcome
  | answered : String → ChatOutcome
  deriving DecidableEq, Repr

/-- The `/chat` route handler (src/app.py lines 566-587).  `message`
defaults to `""` when the key is absent (`data.get('message', '')`);
`if not user_message` rejects exactly the empty string with a 400
response, and every other message is passed to `get_ai_response`. -/
def chat (message : String) (feature : Option String) (history : List Msg)
    (send : List Entry → String → Except String String) : ChatOutcome :=
  if message = "" then ChatOutcome.rejected "No message provided" 400
  else ChatOutcome.answered (get_ai_response message feature history send)

/-- The generation parameters (src/app.py lines 29-34).  The float
literals 0.7 and 0.95 are modelled as the exact rationals they denote in
the source text; they undergo no arithmetic. -/
structure GenerationConfig where
  temperature : ℚ
  top_p : ℚ
  top_k : Nat
  max_output_tokens : Nat
  deriving DecidableEq, Repr

/-- The module-level `generation_config` dict (src/app.py lines 29-34). -/
def generation_config : GenerationConfig :=
  ⟨7/10, 95/100, 40, 2048⟩

/-- The generation configuration in force for a call of
`get_ai_response`: the global `model` object is constructed once at
module load from `generation_config` (src/app.py lines 36-39), so the
per-call inputs never reach it. -/
def configForCall (user_message : String) (feature : Option String)
    (chat_history : List Msg) : GenerationConfig :=
  generation_config


/-- Concrete chat history with 7 entries, used by witnesses. -/
def hist7 : List Msg :=
  [⟨"user", "m1"⟩, ⟨"assistant", "m2"⟩, ⟨"user", "m3"⟩, ⟨"assistant", "m4"⟩,
   ⟨"user", "m5"⟩, ⟨"assistant", "m6"⟩, ⟨"user", "m7"⟩]

/-- `hist7` without its first entry: 6 entries, used by witnesses. -/
def hist6 : List Msg :=
  [⟨"assistant", "m2"⟩, ⟨"user", "m3"⟩, ⟨"assistant", "m4"⟩,
   ⟨"user", "m5"⟩, ⟨"assistant", "m6"⟩, ⟨"user", "m7"⟩]

/-- Concrete chat history with 2 entries, used by witnesses. -/
def hist2 : List Msg :=
  [⟨"user", "a"⟩, ⟨"assistant", "b"⟩]

/-- A remote call that always succeeds, used by witnesses. -/
def sendOk : List Entry → String → Except String String :=
  fun conv msg => Except.ok "a model answer"

/-- A remote call that always raises with detail "boom", used by
witnesses. -/
def sendErr : List Entry → String → Except String String :=
  fun conv msg => Except.error "boom"

/-- The history part of the conversation is always the trailing window
mapped entrywise: the Python guard on an empty history merely skips a
loop that would have appended nothing anyway. -/
theorem historyEntries_eq_map (h : List Msg) :
    historyEntries h = (windowOf h).map toEntry := by
  cases h with
  | nil => rfl
  | cons a t => rfl

/-- C1: for every history of length at least 6, the windowed portion of
the InvocationContext built by get_ai_response is exactly the last 6
history entries, in their original order, each translated to a
conversation entry; the window is a length-6 suffix of the history.  For
every history of length under 6 the windowed portion is the whole
history, with no padding and no failure. -/
theorem trailing_window_exact (m : String) (t : Option String) (h : List Msg) :
    (6 ≤ h.length →
      invocationContext m t h
        = ⟨"user", [generate_system_prompt t]⟩ :: ⟨"model", [ack_text]⟩ ::
            ((h.drop (h.length - 6)).map toEntry ++ [⟨"user", [m]⟩])
      ∧ (h.drop (h.length - 6)).length = 6
      ∧ h.take (h.length - 6) ++ h.drop (h.length - 6) = h)
    ∧ (h.length < 6 →
      invocationContext m t h
        = ⟨"user", [generate_system_prompt t]⟩ :: ⟨"model", [ack_text]⟩ ::
            (h.map toEntry ++ [⟨"user", [m]⟩])) := by
  constructor
  · intro h6
    refine ⟨?_, ?_, List.take_append_drop _ _⟩
    · simp [invocationContext, buildConversation, historyEntries_eq_map, windowOf]
    · rw [List.length_drop]
      omega
  · intro hlt
    have h0 : h.length - 6 = 0 := by omega
    simp [invocationContext, buildConversation, historyEntries_eq_map, windowOf, h0]

/-- Witness for C1: the 7-entry history keeps exactly its last 6
entries, and the 2-entry history is kept whole. -/
theorem trailing_window_exact_witness :
    (6 ≤ hist7.length
      ∧ (invocationContext "q" none hist7
          = ⟨"user", [generate_system_prompt none]⟩ :: ⟨"model", [ack_text]⟩ ::
              ((hist7.drop (hist7.length - 6)).map toEntry ++ [⟨"user", ["q"]⟩])
        ∧ (hist7.drop (hist7.length - 6)).length = 6
        ∧ hist7.take (hist7.length - 6) ++ hist7.drop (hist7.length - 6) = hist7))
    ∧ (hist2.length < 6
      ∧ invocationContext "q" none hist2
          = ⟨"user", [generate_system_prompt none]⟩ :: ⟨"model", [ack_text]⟩ ::
              (hist2.map toEntry ++ [⟨"user", ["q"]⟩])) :=
  ⟨⟨by decide, (trailing_window_exact "q" none hist7).1 (by decide)⟩,
   ⟨by decide, (trailing_window_exact "q" none hist2).2 (by decide)⟩⟩

/-- C2 counterexample: the whitespace-only message " " is not rejected
by the /chat route.  The route answers it with the result of the model
call, and the answer depends on what the model call returns, so a model
invocation is made and response text is produced, refuting the claim
that every all-whitespace message is rejected before context assembly. -/
theorem chat_whitespace_reaches_model :
    (" ").data.all Char.isWhitespace = true
    ∧ chat " " none [] sendOk = ChatOutcome.answered "a model answer"
    ∧ chat " " none [] (fun conv msg => Except.ok "A")
        ≠ chat " " none [] (fun conv msg => Except.ok "B") := by
  refine ⟨by decide, rfl, ?_⟩
  decide

/-- C2 (amended): the /chat route rejects exactly the empty (or absent)
user message, returning the 400 rejection without invoking the model -
the outcome is independent of the remote-call function - while every
non-empty message, including whitespace-only ones, is passed on to
get_ai_response.  (Whitespace-only input is trimmed away client-side, so
it does not arise from the UI.) -/
theorem chat_rejects_exactly_empty (f : Option String) (h : List Msg)
    (send₁ send₂ : List Entry → String → Except String String) :
    chat "" f h send₁ = ChatOutcome.rejected "No message provided" 400
    ∧ chat "" f h send₁ = chat "" f h send₂
    ∧ ∀ m : String, m ≠ "" → chat m f h send₁ = ChatOutcome.answered (get_ai_response m f h send₁) := by
  refine ⟨rfl, rfl, ?_⟩
  intro m hm
  simp [chat, hm]

/-- Witness for C2 (amended): the empty message is rejected; the
whitespace-only message " " is answered. -/
theorem chat_rejects_exactly_empty_witness :
    chat "" none [] sendOk = ChatOutcome.rejected "No message provided" 400
    ∧ chat " " none [] sendOk = ChatOutcome.answered (get_ai_response " " none [] sendOk) :=
  ⟨(chat_rejects_exactly_empty none [] sendOk sendOk).1,
   (chat_rejects_exactly_empty none [] sendOk sendOk).2.2 " " (by decide)⟩

/-- C3: when the remote call raises with detail e, get_ai_response
returns normally (it is a total function) with the fallback message: the
fixed fallback body followed by the raw error detail str(e).  The body
states the request could not be completed ("I encountered an issue
generating a response"), enumerates the three canonical causes
(missing or invalid credential, connectivity, rate limiting), and ends
with "Error details: " so that the raw detail follows it.  The result
equals what a successful call returning the same text would produce, so
the fallback is indistinguishable from a successful text result at the
caller's interface. -/
theorem fallback_on_failure (m : String) (t : Option String) (h : List Msg)
    (e : String) (send : List Entry → String → Except String String)
    (hfail : send (buildConversation t h) m = Except.error e) :
    get_ai_response m t h send = fallbackBody ++ e
    ∧ (∃ p q, fallbackBody = p ++ "I encountered an issue generating a response" ++ q)
    ∧ (∃ p q, fallbackBody = p ++ "API key not configured properly" ++ q)
    ∧ (∃ p q, fallbackBody = p ++ "Network connectivity issues" ++ q)
    ∧ (∃ p q, fallbackBody = p ++ "API rate limits" ++ q)
    ∧ (∃ p, fallbackBody = p ++ "Error details: ")
    ∧ get_ai_response m t h send
        = get_ai_response m t h (fun conv msg => Except.ok (fallbackMessage e)) := by
  have h1 : get_ai_response m t h send = fallbackBody ++ e := by
    unfold get_ai_response
    rw [hfail]
    rfl
  refine ⟨h1, ?_, ?_, ?_, ?_, ?_, ?_⟩
  · exact ⟨"**Error Processing Request**\n\n",
      ". This could be due to:\n- API key not configured properly\n- Network connectivity issues\n- API rate limits\n\n**Please ensure:**\n1. Your Gemini API key is correctly set in the code (app_key variable)\n2. You have an active internet connection\n3. Your API key has sufficient quota\n\nError details: ",
      rfl⟩
  · exact ⟨"**Error Processing Request**\n\nI encountered an issue generating a response. This could be due to:\n- ",
      "\n- Network connectivity issues\n- API rate limits\n\n**Please ensure:**\n1. Your Gemini API key is correctly set in the code (app_key variable)\n2. You have an active internet connection\n3. Your API key has sufficient quota\n\nError details: ",
      rfl⟩
  · exact ⟨"**Error Processing Request**\n\nI encountered an issue generating a response. This could be due to:\n- API key not configured properly\n- ",
      "\n- API rate limits\n\n**Please ensure:**\n1. Your Gemini API key is correctly set in the code (app_key variable)\n2. You have an active internet connection\n3. Your API key has sufficient quota\n\nError details: ",
      rfl⟩
  · exact ⟨"**Error Processing Request**\n\nI encountered an issue generating a response. This could be due to:\n- API key not configured properly\n- Network connectivity issues\n- ",
      "\n\n**Please ensure:**\n1. Your Gemini API key is correctly set in the code (app_key variable)\n2. You have an active internet connection\n3. Your API key has sufficient quota\n\nError details: ",
      rfl⟩
  · exact ⟨"**Error Processing Request**\n\nI encountered an issue generating a response. This could be due to:\n- API key not configured properly\n- Network connectivity issues\n- API rate limits\n\n**Please ensure:**\n1. Your Gemini API key is correctly set in the code (app_key variable)\n2. You have an active internet connection\n3. Your API key has sufficient quota\n\n",
      rfl⟩
  · rw [h1]
    rfl

/-- Witness for C3: a failing call with detail "boom" on the
pest-disease scenario. -/
theorem fallback_on_failure_witness :
    get_ai_response "aphids on tomato" (some "pest-disease") [] sendErr = fallbackBody ++ "boom"
    ∧ (∃ p q, fallbackBody = p ++ "I encountered an issue generating a response" ++ q)
    ∧ (∃ p q, fallbackBody = p ++ "API key not configured properly" ++ q)
    ∧ (∃ p q, fallbackBody = p ++ "Network connectivity issues" ++ q)
    ∧ (∃ p q, fallbackBody = p ++ "API rate limits" ++ q)
    ∧ (∃ p, fallbackBody = p ++ "Error details: ")
    ∧ get_ai_response "aphids on tomato" (some "pest-disease") [] sendErr
        = get_ai_response "aphids on tomato" (some "pest-disease") []
            (fun conv msg => Except.ok (fallbackMessage "boom")) :=
  fallback_on_failure "aphids on tomato" (some "pest-disease") [] "boom" sendErr rfl

/-- C4: looking up a topic id that is not in the registry (and passing
no topic at all) never fails and yields exactly the base framing, so an
unknown id is behaviorally identical to passing no topic. -/
theorem unknown_topic_gives_base (t : String)
    (hunk : feature_contexts.lookup t = none) :
    generate_system_prompt (some t) = base_prompt
    ∧ generate_system_prompt none = base_prompt := by
  refine ⟨?_, rfl⟩
  by_cases ht : t = ""
  · simp [generate_system_prompt, ht]
  · simp [generate_system_prompt, ht, hunk]

/-- Witness for C4: the unregistered id "organic-gardening". -/
theorem unknown_topic_gives_base_witness :
    feature_contexts.lookup "organic-gardening" = none
    ∧ (generate_system_prompt (some "organic-gardening") = base_prompt
      ∧ generate_system_prompt none = base_prompt) :=
  ⟨by decide, unknown_topic_gives_base "organic-gardening" (by decide)⟩

/-- C5: for every user message, topic and history, the InvocationContext
starts with the priming pair - the user-role framing entry immediately
followed by the fixed model-role acknowledgment - and this pair precedes
all history entries and the new user message. -/
theorem priming_pair_precedes_all (m : String) (t : Option String) (h : List Msg) :
    invocationContext m t h
      = ⟨"user", [generate_system_prompt t]⟩ :: ⟨"model", [ack_text]⟩ ::
          (historyEntries h ++ [⟨"user", [m]⟩]) :=
  rfl

/-- C6: the context-building portion of get_ai_response is a pure,
deterministic transform: two invocations with identical message, topic
and history arguments construct identical conversations and identical
InvocationContexts.  Totality (no failure, no I/O) holds by
construction: the builder is embedded as a total function. -/
theorem context_builder_pure (m₁ m₂ : String) (t₁ t₂ : Option String)
    (h₁ h₂ : List Msg) (hm : m₁ = m₂) (ht : t₁ = t₂) (hh : h₁ = h₂) :
    buildConversation t₁ h₁ = buildConversation t₂ h₂
    ∧ invocationContext m₁ t₁ h₁ = invocationContext m₂ t₂ h₂ := by
  subst hm
  subst ht
  subst hh
  exact ⟨rfl, rfl⟩

/-- Witness for C6 at concrete arguments. -/
theorem context_builder_pure_witness :
    buildConversation (some "pest-disease") hist2 = buildConversation (some "pest-disease") hist2
    ∧ invocationContext "q" (some "pest-disease") hist2
        = invocationContext "q" (some "pest-disease") hist2 :=
  context_builder_pure "q" "q" (some "pest-disease") (some "pest-disease") hist2 hist2 rfl rfl rfl

/-- C7: for topic "pest-disease", an empty history and any non-empty
user message, the InvocationContext handed to the model has exactly 3
entries in order: the topic-augmented framing, the fixed acknowledgment,
and the new user message as the final user-role entry. -/
theorem pest_disease_three_entries (m : String) (hm : m ≠ "") :
    invocationContext m (some "pest-disease") []
      = [⟨"user", [base_prompt ++ "\n\nFocus on: Identifying pests and diseases from descriptions, providing both organic and chemical treatment options, preventive measures, and application guidelines."]⟩,
         ⟨"model", [ack_text]⟩,
         ⟨"user", [m]⟩]
    ∧ (invocationContext m (some "pest-disease") []).length = 3 :=
  ⟨rfl, rfl⟩

/-- Witness for C7 at the message "aphids on tomato". -/
theorem pest_disease_three_entries_witness :
    "aphids on tomato" ≠ ""
    ∧ (invocationContext "aphids on tomato" (some "pest-disease") []
        = [⟨"user", [base_prompt ++ "\n\nFocus on: Identifying pests and diseases from descriptions, providing both organic and chemical treatment options, preventive measures, and application guidelines."]⟩,
           ⟨"model", [ack_text]⟩,
           ⟨"user", ["aphids on tomato"]⟩]
      ∧ (invocationContext "aphids on tomato" (some "pest-disease") []).length = 3) :=
  ⟨by decide, pest_disease_three_entries "aphids on tomato" (by decide)⟩

/-- C8: every history entry included in the window appears in the built
history part at the same index, with its role mapped ("user" stays user,
any other role becomes "model") and its content preserved. -/
theorem window_role_mapping (h : List Msg) (i : Nat) (msg : Msg)
    (hget : (windowOf h)[i]? = some msg) :
    (historyEntries h)[i]?
      = some ⟨if msg.role = "user" then "user" else "model", [msg.content]⟩ := by
  rw [historyEntries_eq_map, List.getElem?_map, hget]
  rfl

/-- Witness for C8: index 1 of the 2-entry window holds an
assistant-role message, emitted with role "model" and content kept. -/
theorem window_role_mapping_witness :
    (windowOf hist2)[1]? = some ⟨"assistant", "b"⟩
    ∧ (historyEntries hist2)[1]? = some ⟨"model", ["b"]⟩ :=
  ⟨by decide, window_role_mapping hist2 1 ⟨"assistant", "b"⟩ (by decide)⟩

/-- C9: the generation parameters of every remote call are the fixed
constants temperature 0.7, nucleus threshold 0.95, top-k 40 and maximum
output length 2048 tokens; the configuration is identical across calls
and not influenced by any of the per-call inputs. -/
theorem generation_parameters_fixed (m₁ m₂ : String) (t₁ t₂ : Option String)
    (h₁ h₂ : List Msg) :
    configForCall m₁ t₁ h₁ = generation_config
    ∧ configForCall m₁ t₁ h₁ = configForCall m₂ t₂ h₂
    ∧ generation_config.temperature = 7/10
    ∧ generation_config.top_p = 95/100
    ∧ generation_config.top_k = 40
    ∧ generation_config.max_output_tokens = 2048 :=
  ⟨rfl, rfl, rfl, rfl, rfl, rfl⟩

/-- C10: history entries earlier than the last 6 never influence the
context: two histories with the same trailing window yield identical
InvocationContexts for the same message and topic. -/
theorem earlier_history_no_influence (m : String) (t : Option String)
    (h₁ h₂ : List Msg)
    (hw : h₁.drop (h₁.length - 6) = h₂.drop (h₂.length - 6)) :
    invocationContext m t h₁ = invocationContext m t h₂ := by
  simp [invocationContext, buildConversation, historyEntries_eq_map, windowOf, hw]

/-- Witness for C10: a 7-entry history and the 6-entry history obtained
by removing its oldest entry share their trailing window and produce the
same InvocationContext. -/
theorem earlier_history_no_influence_witness :
    hist7.drop (hist7.length - 6) = hist6.drop (hist6.length - 6)
    ∧ invocationContext "q" none hist7 = invocationContext "q" none hist6 :=
  ⟨by decide, earlier_history_no_influence "q" none hist7 hist6 (by decide)⟩

end AgroNova
